import Mathlib

/-!
Model of the OpenProdoc MCP server (`src/MCP/openprodoc_mcp.py`).

Python strings are embedded as `List Char`; `Optional[str]` values as
`Option PyStr` with Python truthiness (`None` and `""` are falsy); JSON
response dictionaries as structures of optional fields; the remote HTTP
service as an oracle argument giving the outcome of the single request an
operation issues.  Stateful operations take the current session state and
return the new one; operations that talk to the network also return the
list of requests they issued.
-/

set_option maxRecDepth 10000

namespace OpenProdoc

/-- Python strings, embedded as lists of characters. -/
abbrev PyStr := List Char

/-- Python truthiness of an `Optional[str]` value: `None` and the empty
string are falsy, every other string is truthy. -/
def truthy : Option PyStr → Bool
  | none => false
  | some s => !s.isEmpty

/-- Pythonic `a or b` on `Optional[str]`: the left operand when truthy,
otherwise the right one. -/
def py_or (a b : Option PyStr) : Option PyStr :=
  if truthy a then a else b

/-- One entry of an `Attrs` / `ListAttr` array: `attr.get('Name')` is
`none` when the `Name` key is absent, `Values` is `attr.get('Values', [])`. -/
structure AttrEntry where
  Name : Option PyStr
  Values : List PyStr
deriving DecidableEq

/-- A folder/document/term record as the remote service returns it: the
direct scalar keys of the JSON object (values already in `str` form),
the `Attrs` array (`item.get('Attrs', [])`) and the `ListAttr` array
(`item.get('ListAttr', [])`). -/
structure Record where
  flat : List (PyStr × PyStr)
  Attrs : List AttrEntry
  ListAttr : List AttrEntry
deriving DecidableEq

/-- First-match association lookup, the direct-key access `item[k]` of a
Python dict restricted to the scalar keys. -/
def lookup_flat : List (PyStr × PyStr) → PyStr → Option PyStr
  | [], _ => none
  | (k, v) :: rest, key => if k = key then some v else lookup_flat rest key

/-- Model of `_extract_attr_value` (src lines 531-555): direct key first,
then a scan of the `Attrs` array for the first entry whose `Name` equals
`attr_name`, returning its first value (or the default when `Values` is
empty), and the default when no entry matches. -/
def extract_attr_value (item : Record) (attr_name : PyStr) (dflt : PyStr) : PyStr :=
  match lookup_flat item.flat attr_name with
  | some v => v
  | none =>
    match item.Attrs.find? (fun a => a.Name = some attr_name) with
    | some a =>
      match a.Values with
      | v :: _ => v
      | [] => dflt
    | none => dflt

/-- Extraction as C1 words it for the `ListAttr` alternative: the same
scan performed on the record's `ListAttr` array instead of `Attrs`; the
claim asserts this is equivalent to `extract_attr_value`. -/
def extract_attr_value_via_listattr (item : Record) (attr_name : PyStr) (dflt : PyStr) : PyStr :=
  match lookup_flat item.flat attr_name with
  | some v => v
  | none =>
    match item.ListAttr.find? (fun a => a.Name = some attr_name) with
    | some a =>
      match a.Values with
      | v :: _ => v
      | [] => dflt
    | none => dflt

/-- Extraction as the amended claim words it: flat value first, else the
first `Attrs` entry named `attr_name` (selected here by `filter`/`head?`),
whose first value is taken with the default as fallback; `ListAttr` is
never consulted. -/
def extract_attr_value_amended_spec (item : Record) (attr_name : PyStr) (dflt : PyStr) : PyStr :=
  match lookup_flat item.flat attr_name with
  | some v => v
  | none =>
    match (item.Attrs.filter (fun a => a.Name = some attr_name)).head? with
    | some a => a.Values.headD dflt
    | none => dflt

/-- Python `s.split(sep)` for a one-character separator: splits on every
occurrence, keeping empty fields, and returns `[s]` when the separator
does not occur (in particular `[""]` on the empty string). -/
def pySplit (sep : Char) : PyStr → List PyStr
  | [] => [[]]
  | x :: xs =>
    let rest := pySplit sep xs
    if x = sep then [] :: rest
    else
      match rest with
      | h :: t => (x :: h) :: t
      | [] => [[x]]

/-- Python `sep.join(parts)` for a one-character separator. -/
def pyJoin (sep : Char) : List PyStr → PyStr
  | [] => []
  | [l] => l
  | l :: ls => l ++ sep :: pyJoin sep ls

/-- The character budget `CHARACTER_LIMIT` (src line 40). -/
def CHARACTER_LIMIT : Nat := 25000

/-- The truncation notice appended by `_check_truncation` (src lines
752-756), with the count placeholders rendered in decimal. -/
def truncation_msg (truncated_count data_len : Nat) (item_type : PyStr) : PyStr :=
  "\n\n---\n**TRUNCATED**: Response too large. Showing approximately ".data
    ++ (toString truncated_count).data
    ++ " of ".data
    ++ (toString data_len).data
    ++ " ".data ++ item_type
    ++ ". Use pagination parameters (initial/final) or add filters to see more results.".data

/-- Model of `_check_truncation` (src lines 742-758): when the rendered
report exceeds the budget, keep the first half of its lines (by line
count) and append the truncation notice; otherwise return it unchanged. -/
def check_truncation {α : Type} (result : PyStr) (data : List α) (item_type : PyStr) : PyStr :=
  if CHARACTER_LIMIT < result.length then
    let truncated_count := max 1 (data.length / 2)
    let result_lines := pySplit '\n' result
    let estimated_lines := result_lines.length / 2
    let truncated_result := pyJoin '\n' (result_lines.take estimated_lines)
    truncated_result ++ truncation_msg truncated_count data.length item_type
  else result

/-- Substring containment, the Python `needle in hay` test on strings. -/
def containsSubstr (needle hay : PyStr) : Prop :=
  ∃ l r, hay = l ++ needle ++ r

/-- Python `sep.join(parts)` for an arbitrary separator string. -/
def pyJoinStr (sep : PyStr) : List PyStr → PyStr
  | [] => []
  | [l] => l
  | l :: ls => l ++ sep ++ pyJoinStr sep ls

/-- A parsed JSON error/response body, reduced to the `Res` and `Msg` keys
the code consults; a field is `none` when the key is absent. -/
structure RespBody where
  Res : Option PyStr
  Msg : Option PyStr
deriving DecidableEq

/-- The exceptions an operation can catch at its boundary:
`httpx.HTTPStatusError` with its status and (when the body parses as
JSON) the parsed body, `httpx.TimeoutException`, `ValueError`, and any
other exception with its class name and message. -/
inductive ApiError where
  | httpStatus (status : Nat) (body : Option RespBody)
  | timeout
  | valueError (msg : PyStr)
  | other (ename emsg : PyStr)
deriving DecidableEq

/-- The 406 fallback text of `_handle_api_error`. -/
def not_acceptable_fallback : PyStr :=
  "Error: Request not acceptable. Check your input data for validation errors or duplicate entries.".data

/-- The 500 fallback text of `_handle_api_error`. -/
def internal_error_fallback : PyStr :=
  "Error: Internal server error. This may be due to invalid query syntax or missing WHERE clause in search queries.".data

/-- Model of `_handle_api_error` (src lines 491-528): the elif chain on
the HTTP status, with best-effort extraction of the remote `Msg` for 406
and 500, then the timeout, `ValueError` and generic branches. -/
def handle_api_error : ApiError → PyStr
  | .httpStatus status body =>
    if status = 401 then
      "Error: Unauthorized. Your session may have expired. Please login again using openprodoc_login.".data
    else if status = 404 then
      "Error: Resource not found. Please check the ID or path is correct.".data
    else if status = 403 then
      "Error: Permission denied. You don\x27t have access to this resource.".data
    else if status = 406 then
      match body with
      | some d =>
        if d.Res = some "KO".data then "Error: ".data ++ d.Msg.getD "Not Acceptable".data
        else not_acceptable_fallback
      | none => not_acceptable_fallback
    else if status = 429 then
      "Error: Rate limit exceeded. Please wait before making more requests.".data
    else if status = 500 then
      match body with
      | some d =>
        if d.Res = some "KO".data then
          "Error: Internal server error - ".data ++ d.Msg.getD "Internal server error".data
        else
          match d.Msg with
          | some m => "Error: Internal server error - ".data ++ m
          | none => internal_error_fallback
      | none => internal_error_fallback
    else
      "Error: API request failed with status ".data ++ (toString status).data
  | .timeout =>
    "Error: Request timed out. The server may be slow or unreachable. Please try again.".data
  | .valueError m => "Error: ".data ++ m
  | .other en em => "Error: Unexpected error occurred: ".data ++ en ++ ": ".data ++ em

/-- The `ValueError` message `_get_auth_headers` raises when no token is
stored (src line 408). -/
def not_authenticated_msg : PyStr :=
  "Not authenticated. Please login first using openprodoc_login.".data

/-- Python `p.endswith('/')`. -/
def ends_with_slash (p : PyStr) : Bool :=
  p.getLast? = some '/'

/-- The trailing-separator normalization applied by the get/update/delete
folder operations: append `'/'` when the path does not already end in it. -/
def norm_path (p : PyStr) : PyStr :=
  if ends_with_slash p then p else p ++ ['/']

/-- Model of the `validate_identifiers` field validator shared by the
folder input models (src lines 144-151 and the identical copies): raise
`ValueError` only when both identifiers are falsy, otherwise accept. -/
def validate_identifiers (folder_id v : Option PyStr) : Except PyStr (Option PyStr) :=
  if !(truthy folder_id) && !(truthy v) then
    Except.error "Either folder_id or folder_path must be provided".data
  else Except.ok v

/-- Whether a validator/endpoint computation failed with a validation
error. -/
def is_validation_error {α : Type} : Except PyStr α → Bool
  | .error _ => true
  | .ok _ => false

/-- Endpoint selection of `openprodoc_get_folder` (src lines 1143-1150):
`ById` when the id is truthy, otherwise `ByPath` with the normalized
path, otherwise the error string the tool returns. -/
def get_folder_endpoint (folder_id folder_path : Option PyStr) : Except PyStr PyStr :=
  if truthy folder_id then
    Except.ok ("folders/ById/".data ++ folder_id.getD [])
  else if truthy folder_path then
    Except.ok ("folders/ByPath".data ++ norm_path (folder_path.getD []))
  else
    Except.error "Error: Either folder_id or folder_path must be provided".data

/-- Endpoint selection of `openprodoc_update_folder` (src lines 1237-1243),
identical to the get variant. -/
def update_folder_endpoint (folder_id folder_path : Option PyStr) : Except PyStr PyStr :=
  if truthy folder_id then
    Except.ok ("folders/ById/".data ++ folder_id.getD [])
  else if truthy folder_path then
    Except.ok ("folders/ByPath".data ++ norm_path (folder_path.getD []))
  else
    Except.error "Error: Either folder_id or folder_path must be provided".data

/-- Endpoint selection of `openprodoc_delete_folder` (src lines 1325-1333),
identical to the get variant. -/
def delete_folder_endpoint (folder_id folder_path : Option PyStr) : Except PyStr PyStr :=
  if truthy folder_id then
    Except.ok ("folders/ById/".data ++ folder_id.getD [])
  else if truthy folder_path then
    Except.ok ("folders/ByPath".data ++ norm_path (folder_path.getD []))
  else
    Except.error "Error: Either folder_id or folder_path must be provided".data

/-- Endpoint selection of `openprodoc_list_subfolders` (src lines
1408-1415): the supplied path is used verbatim, without trailing-slash
normalization. -/
def list_subfolders_endpoint (folder_id folder_path : Option PyStr) : Except PyStr PyStr :=
  if truthy folder_id then
    Except.ok ("folders/SubFoldersById/".data ++ folder_id.getD [])
  else if truthy folder_path then
    Except.ok ("folders/SubFoldersByPath".data ++ folder_path.getD [])
  else
    Except.error "Error: Either folder_id or folder_path must be provided".data

/-- Endpoint selection of `openprodoc_list_documents_in_folder` (src lines
1501-1507): the supplied path is used verbatim, without trailing-slash
normalization. -/
def list_documents_endpoint (folder_id folder_path : Option PyStr) : Except PyStr PyStr :=
  if truthy folder_id then
    Except.ok ("folders/ContDocsById/".data ++ folder_id.getD [])
  else if truthy folder_path then
    Except.ok ("folders/ContDocsByPath".data ++ folder_path.getD [])
  else
    Except.error "Error: Either folder_id or folder_path must be provided".data

/-- The identifier extraction idiom applied to `Res="OK"` messages, e.g.
`msg.split("=")[1] if "=" in msg else fallback` (src lines 1069, 1259,
1348, 1857, 2195, 2591, 2667). -/
def extract_msg_id (msg fallback : PyStr) : PyStr :=
  if '=' ∈ msg then (pySplit '=' msg).getD 1 [] else fallback

/-- The substring of a message after the first occurrence of `'='`. -/
def after_first_eq (msg : PyStr) : PyStr :=
  (msg.dropWhile (fun c => c != '=')).drop 1

/-- The identifier extraction as C6 words it: everything after the first
`'='`, with the fallback when the message holds no `'='`. -/
def extract_msg_id_claim (msg fallback : PyStr) : PyStr :=
  if '=' ∈ msg then after_first_eq msg else fallback

/-- The process-wide session state: the stored bearer token `_auth_token`
and the base URL `_base_url` (src lines 49-50). -/
structure Session where
  auth_token : Option PyStr
  base_url : PyStr
deriving DecidableEq

/-- The parsed body of a `PUT /session` login response, reduced to the
keys the code consults. -/
structure LoginResp where
  Res : Option PyStr
  Token : Option PyStr
  Msg : Option PyStr
deriving DecidableEq

/-- Model of `openprodoc_login` (src lines 816-861): resolve credentials
against the environment defaults, fail before any state change when they
are missing, overwrite the global base URL, then send the login request
(its outcome given by `outcome`) and store the token only on a
`Res="OK"` response that carries one. -/
def openprodoc_login (username password base_url : Option PyStr)
    (default_username default_password : Option PyStr)
    (st : Session) (outcome : Except ApiError LoginResp) : PyStr × Session :=
  let u := py_or username default_username
  let p := py_or password default_password
  let burl := if truthy base_url then base_url.getD [] else st.base_url
  if !(truthy u) || !(truthy p) then
    ("Error: Username and password are required. Provide them as parameters or set OPENPRODOC_USERNAME and OPENPRODOC_PASSWORD environment variables.".data, st)
  else
    let st1 := { st with base_url := burl }
    match outcome with
    | .error e => (handle_api_error e, st1)
    | .ok d =>
      if d.Res = some "OK".data ∧ d.Token.isSome then
        ("Successfully logged in to OpenProdoc as ".data ++ u.getD []
           ++ ". Token is valid for 24 hours.".data,
         { st1 with auth_token := d.Token })
      else
        ("Error: Login failed. ".data ++ d.Msg.getD "Unknown error".data, st1)

/-- Model of `openprodoc_logout` (src lines 899-935): refuse when no
token is stored; otherwise issue the remote logout and clear the token
on every exit path, the exception handler included. -/
def openprodoc_logout (st : Session) (outcome : Except ApiError RespBody) : PyStr × Session :=
  if !(truthy st.auth_token) then
    ("Error: Not authenticated. No active session to close.".data, st)
  else
    match outcome with
    | .error e => (handle_api_error e, { st with auth_token := none })
    | .ok d =>
      if d.Res = some "OK".data then
        ("Successfully logged out from OpenProdoc.".data, { st with auth_token := none })
      else
        ("Session closed (with message: ".data ++ d.Msg.getD "Unknown".data ++ ")".data,
         { st with auth_token := none })

/-- One HTTP request issued against the remote service (method and
endpoint; bodies are carried by the oracle arguments). -/
structure Req where
  method : PyStr
  endpoint : PyStr
deriving DecidableEq

/-- Output format selector of the tools. -/
inductive RespFormat where
  | markdown
  | json
deriving DecidableEq

/-- A tool result: either the string the tool returns directly, or the
structured payload it hands to `json.dumps` in the JSON format branch. -/
inductive ToolResult (β : Type) where
  | text (s : PyStr)
  | jsonPayload (v : β)
deriving DecidableEq

/-- The structured payload of a successful folder update in JSON format. -/
structure FolderUpdatePayload where
  folder_id : PyStr
  updated_fields : List PyStr
deriving DecidableEq

/-- Model of `openprodoc_update_folder` (src lines 1216-1276): build the
partial body, fail before any network traffic when no update field was
supplied, select the endpoint, require the token, issue the single `PUT`
and parse the `Res`/`Msg` outcome.  The second component collects the
requests issued. -/
def openprodoc_update_folder (folder_id folder_path name acl : Option PyStr)
    (attributes : Option (List AttrEntry)) (fmt : RespFormat)
    (token : Option PyStr) (outcome : Except ApiError RespBody) :
    ToolResult FolderUpdatePayload × List Req :=
  let updated_fields : List PyStr :=
    (if name.isSome then ["name".data] else [])
      ++ (if acl.isSome then ["acl".data] else [])
      ++ (if attributes.isSome then ["attributes".data] else [])
  if name = none ∧ acl = none ∧ attributes = none then
    (.text "Error: No fields to update. Provide at least one of: name, acl, or attributes.".data, [])
  else
    match update_folder_endpoint folder_id folder_path with
    | .error msg => (.text msg, [])
    | .ok ep =>
      if !(truthy token) then
        (.text (handle_api_error (.valueError not_authenticated_msg)), [])
      else
        let req : Req := ⟨"PUT".data, ep⟩
        match outcome with
        | .error e => (.text (handle_api_error e), [req])
        | .ok d =>
          if d.Res = some "OK".data then
            let fid := extract_msg_id (d.Msg.getD []) "Unknown".data
            match fmt with
            | .markdown =>
              (.text (pyJoin '\n'
                ["# Folder Updated Successfully".data, [],
                 "- **Folder ID**: ".data ++ fid,
                 "- **Updated Fields**: ".data ++ pyJoinStr ", ".data updated_fields]), [req])
            | .json => (.jsonPayload ⟨fid, updated_fields⟩, [req])
          else
            (.text ("Error: ".data ++ d.Msg.getD "Unknown error".data), [req])

/-- The structured payload of a successful term update in JSON format. -/
structure TermUpdatePayload where
  term_id : PyStr
  updated_fields : List PyStr
deriving DecidableEq

/-- Model of `openprodoc_update_term` (src lines 2553-2608): build the
partial body, fail before any network traffic when no update field was
supplied, require the token and issue the single `PUT`. -/
def openprodoc_update_term (term_id : PyStr)
    (name description language scope_note : Option PyStr) (fmt : RespFormat)
    (token : Option PyStr) (outcome : Except ApiError RespBody) :
    ToolResult TermUpdatePayload × List Req :=
  let updated_fields : List PyStr :=
    (if name.isSome then ["name".data] else [])
      ++ (if description.isSome then ["description".data] else [])
      ++ (if language.isSome then ["language".data] else [])
      ++ (if scope_note.isSome then ["scope_note".data] else [])
  if name = none ∧ description = none ∧ language = none ∧ scope_note = none then
    (.text "Error: No fields to update. Provide at least one of: name, description, language, or scope_note.".data, [])
  else
    if !(truthy token) then
      (.text (handle_api_error (.valueError not_authenticated_msg)), [])
    else
      let req : Req := ⟨"PUT".data, "thesauri/ById/".data ++ term_id⟩
      match outcome with
      | .error e => (.text (handle_api_error e), [req])
      | .ok d =>
        if d.Res = some "OK".data then
          let tid := extract_msg_id (d.Msg.getD []) term_id
          match fmt with
          | .markdown =>
            (.text (pyJoin '\n'
              ["# Thesaurus Term Updated Successfully".data, [],
               "- **Term ID**: ".data ++ tid,
               "- **Updated Fields**: ".data ++ pyJoinStr ", ".data updated_fields]), [req])
          | .json => (.jsonPayload ⟨tid, updated_fields⟩, [req])
        else
          (.text ("Error: ".data ++ d.Msg.getD "Unknown error".data), [req])

/-- The existing-document metadata fetched by `_get_document_metadata_raw`,
reduced to the keys `openprodoc_update_document` reads back; a field is
`none` when the key is absent.  `DType` models the `"Type"` key. -/
structure DocMeta where
  Title : Option PyStr
  ACL : Option PyStr
  ParentId : Option PyStr
  DType : Option PyStr
  VerLabel : Option PyStr
  DocDate : Option PyStr
  PDDate : Option PyStr
  PDAuthor : Option PyStr
  ListAttr : List AttrEntry
deriving DecidableEq

/-- Model of `_get_document_metadata_raw` (src lines 1997-2015): a `GET`
on `documents/ById/<id>` whose every failure, the missing-token
`ValueError` included, is swallowed into `none`.  The request list
records whether the `GET` was actually issued. -/
def get_document_metadata_raw (document_id : PyStr) (token : Option PyStr)
    (outcome : Except ApiError DocMeta) : Option DocMeta × List Req :=
  if !(truthy token) then (none, [])
  else
    let req : Req := ⟨"GET".data, "documents/ById/".data ++ document_id⟩
    match outcome with
    | .error _ => (none, [req])
    | .ok d => (some d, [req])

/-- The full metadata object a document update sends, seeded from the
existing record and overridden by the supplied fields.  `DType` models
the `"Type"` key. -/
structure DocUpdateMetadata where
  Title : PyStr
  ACL : PyStr
  Idparent : PyStr
  DType : PyStr
  VerLabel : PyStr
  DocDate : PyStr
  PDDate : PyStr
  PDAuthor : PyStr
  ListAttr : List AttrEntry
deriving DecidableEq

/-- The structured payload of a successful document update in JSON format. -/
structure DocUpdatePayload where
  document_id : PyStr
  updated_fields : List PyStr
deriving DecidableEq

/-- Model of `openprodoc_update_document` (src lines 2088-2214): STEP 1
fetches the existing metadata (one `GET`, issued before any validation),
STEP 2/3 seed and override the full metadata object, then the
zero-field check runs, the local file is read when a new version is
uploaded (`file_content = none` models `FileNotFoundError`), and the
single `PUT` is issued.  `fetch_outcome` and `put_outcome` give the two
remote outcomes; the request list records the issued requests in order. -/
def openprodoc_update_document (document_id : PyStr)
    (file_path title document_type parent_folder_id acl version_label
      doc_date author pd_date : Option PyStr)
    (attributes : Option (List AttrEntry)) (fmt : RespFormat)
    (token : Option PyStr) (file_content : Option PyStr)
    (fetch_outcome : Except ApiError DocMeta)
    (put_outcome : Except ApiError RespBody) :
    ToolResult DocUpdatePayload × List Req :=
  let fetched := get_document_metadata_raw document_id token fetch_outcome
  match fetched.1 with
  | none =>
    (.text "Error: Could not retrieve existing document metadata. Document may not exist.".data,
     fetched.2)
  | some existing_doc =>
    let _metadata : DocUpdateMetadata :=
      { Title := title.getD (existing_doc.Title.getD [])
        ACL := acl.getD (existing_doc.ACL.getD "Public".data)
        Idparent := parent_folder_id.getD (existing_doc.ParentId.getD [])
        DType := document_type.getD (existing_doc.DType.getD [])
        VerLabel := version_label.getD (existing_doc.VerLabel.getD "1.0".data)
        DocDate := doc_date.getD (existing_doc.DocDate.getD [])
        PDDate := pd_date.getD (existing_doc.PDDate.getD [])
        PDAuthor := author.getD (existing_doc.PDAuthor.getD [])
        ListAttr := attributes.getD existing_doc.ListAttr }
    let updated_fields : List PyStr :=
      (if title.isSome then ["title".data] else [])
        ++ (if document_type.isSome then ["document_type".data] else [])
        ++ (if parent_folder_id.isSome then ["parent_folder_id".data] else [])
        ++ (if acl.isSome then ["acl".data] else [])
        ++ (if version_label.isSome then ["version_label".data] else [])
        ++ (if doc_date.isSome then ["doc_date".data] else [])
        ++ (if author.isSome then ["author".data] else [])
        ++ (if pd_date.isSome then ["pd_date".data] else [])
        ++ (if attributes.isSome then ["attributes".data] else [])
    if updated_fields = [] ∧ !(truthy file_path) then
      (.text "Error: No fields to update. Provide at least one of: file_path, title, document_type, parent_folder_id, acl, version_label, doc_date, author, pd_date, or attributes.".data,
       fetched.2)
    else if !(truthy token) then
      (.text (handle_api_error (.valueError not_authenticated_msg)), fetched.2)
    else if truthy file_path ∧ file_content = none then
      (.text ("Error: File not found at path: ".data ++ file_path.getD []), fetched.2)
    else
      let uf := if truthy file_path then updated_fields ++ ["binary".data] else updated_fields
      let req2 : Req := ⟨"PUT".data, "documents/ById/".data ++ document_id⟩
      match put_outcome with
      | .error e => (.text (handle_api_error e), fetched.2 ++ [req2])
      | .ok d =>
        if d.Res = some "OK".data then
          let doc_id := extract_msg_id (d.Msg.getD []) document_id
          match fmt with
          | .markdown =>
            (.text (pyJoin '\n'
              ["# Document Updated Successfully".data, [],
               "- **Document ID**: ".data ++ doc_id,
               "- **Updated Fields**: ".data ++ pyJoinStr ", ".data uf]),
             fetched.2 ++ [req2])
          | .json => (.jsonPayload ⟨doc_id, uf⟩, fetched.2 ++ [req2])
        else
          (.text ("Error: ".data ++ d.Msg.getD "Unknown error".data), fetched.2 ++ [req2])

/-- The parsed body of a listing/search response: either a JSON array of
records or something else (which the code replaces with the empty list). -/
inductive SearchData where
  | arr (items : List Record)
  | nonArr
deriving DecidableEq

/-- Model of `_format_documents_list_markdown` (src lines 661-693). -/
def format_documents_list_markdown (documents : List Record) (total : Option Nat) : PyStr :=
  if documents.isEmpty then "No documents found.".data
  else
    let header : List PyStr :=
      ["# Documents".data]
        ++ (match total with
            | some t =>
              ["\nTotal: ".data ++ (toString t).data ++ " documents (showing ".data
                 ++ (toString documents.length).data ++ ")".data]
            | none =>
              ["\nShowing ".data ++ (toString documents.length).data ++ " documents".data])
        ++ [[]]
    let docLines : List PyStr := documents.flatMap fun doc =>
      let title := extract_attr_value doc "Title".data "Unknown".data
      let doc_id := extract_attr_value doc "PDId".data "N/A".data
      let doc_type := extract_attr_value doc "DocType".data "N/A".data
      let version := extract_attr_value doc "Version".data "N/A".data
      let created := extract_attr_value doc "PDDate".data "N/A".data
      let author := extract_attr_value doc "PDAutor".data "N/A".data
      ["## ".data ++ title ++ " (".data ++ doc_id ++ ")".data,
       "- **Type**: ".data ++ doc_type,
       "- **Version**: ".data ++ version,
       "- **Created**: ".data ++ created,
       "- **Author**: ".data ++ author]
        ++ (if doc.ListAttr.isEmpty then []
            else ["- **Attributes**: ".data ++ (toString doc.ListAttr.length).data
                    ++ " custom attributes".data])
        ++ [[]]
    pyJoin '\n' (header ++ docLines)

/-- The structured payload of a JSON-format document search. -/
structure SearchDocsPayload where
  count : Nat
  query : PyStr
  initial : Nat
  final : Nat
  documents : List Record
deriving DecidableEq

/-- Model of `openprodoc_search_documents` (src lines 2292-2332): require
the token, issue the single `POST documents/Search`, coerce a non-array
body to the empty list, and render or report the classified failure. -/
def openprodoc_search_documents (query : PyStr) (initial final : Nat)
    (fmt : RespFormat) (token : Option PyStr)
    (outcome : Except ApiError SearchData) :
    ToolResult SearchDocsPayload × List Req :=
  if !(truthy token) then
    (.text (handle_api_error (.valueError not_authenticated_msg)), [])
  else
    let req : Req := ⟨"POST".data, "documents/Search".data⟩
    match outcome with
    | .error e => (.text (handle_api_error e), [req])
    | .ok data =>
      let documents := match data with | .arr l => l | .nonArr => []
      if documents.isEmpty then
        (.text "No documents found matching your query.".data, [req])
      else
        match fmt with
        | .markdown =>
          (.text (check_truncation (format_documents_list_markdown documents none)
                    documents "documents".data), [req])
        | .json =>
          (.jsonPayload ⟨documents.length, query, initial, final, documents⟩, [req])

/-! Helper lemmas about the Python split/join embedding. -/

theorem pySplit_ne_nil (sep : Char) (l : PyStr) : pySplit sep l ≠ [] := by
  cases l with
  | nil => simp [pySplit]
  | cons x xs =>
    simp only [pySplit]
    split
    · simp
    · split <;> simp

theorem pySplit_not_mem {sep : Char} {l : PyStr} (h : sep ∉ l) : pySplit sep l = [l] := by
  induction l with
  | nil => rfl
  | cons x xs ih =>
    have hx : ¬x = sep := fun he => h (he ▸ List.mem_cons_self x xs)
    have hxs : sep ∉ xs := fun hm => h (List.mem_cons_of_mem _ hm)
    simp [pySplit, hx, ih hxs]

theorem pySplit_append {sep : Char} {l : PyStr} (r : PyStr) (h : sep ∉ l) :
    pySplit sep (l ++ sep :: r) = l :: pySplit sep r := by
  induction l with
  | nil => simp [pySplit]
  | cons x xs ih =>
    have hx : ¬x = sep := fun he => h (he ▸ List.mem_cons_self x xs)
    have hxs : sep ∉ xs := fun hm => h (List.mem_cons_of_mem _ hm)
    simp [pySplit, hx, ih hxs]

theorem pyJoin_cons_cons (sep x : Char) (h : PyStr) (t : List PyStr) :
    pyJoin sep ((x :: h) :: t) = x :: pyJoin sep (h :: t) := by
  cases t <;> rfl

theorem pyJoin_pySplit (sep : Char) (l : PyStr) : pyJoin sep (pySplit sep l) = l := by
  induction l with
  | nil => rfl
  | cons x xs ih =>
    obtain ⟨h, t, hrest⟩ := List.exists_cons_of_ne_nil (pySplit_ne_nil sep xs)
    by_cases hx : x = sep
    · rw [show pySplit sep (x :: xs) = [] :: pySplit sep xs by simp [pySplit, hx], hrest]
      rw [hrest] at ih
      show [] ++ sep :: pyJoin sep (h :: t) = x :: xs
      rw [List.nil_append, ih, hx]
    · rw [show pySplit sep (x :: xs) = (x :: h) :: t by simp [pySplit, hx, hrest],
        pyJoin_cons_cons, ← hrest, ih]

theorem pyJoin_take_le (sep : Char) :
    ∀ (L : List PyStr) (k : Nat), (pyJoin sep (L.take k)).length ≤ (pyJoin sep L).length
  | [], k => by simp
  | l :: ls, 0 => by simp [pyJoin]
  | l :: ls, (k + 1) => by
    cases ls with
    | nil => cases k <;> simp [pyJoin]
    | cons m ms =>
      cases k with
      | zero =>
        show (pyJoin sep [l]).length ≤ (pyJoin sep (l :: m :: ms)).length
        show l.length ≤ (l ++ sep :: pyJoin sep (m :: ms)).length
        simp
      | succ j =>
        have ih := pyJoin_take_le sep (m :: ms) (j + 1)
        show (pyJoin sep (l :: (m :: ms).take (j + 1))).length
            ≤ (pyJoin sep (l :: m :: ms)).length
        obtain ⟨h, t, htake⟩ :
            ∃ h t, (m :: ms).take (j + 1) = h :: t := ⟨m, ms.take j, rfl⟩
        rw [htake]
        show ((l ++ sep :: pyJoin sep (h :: t))).length
            ≤ ((l ++ sep :: pyJoin sep (m :: ms))).length
        rw [← htake]
        simp only [List.length_append, List.length_cons]
        omega

/-! Helper lemmas about substring containment. -/

theorem containsSubstr_append_left (needle pre hay : PyStr)
    (h : containsSubstr needle hay) : containsSubstr needle (pre ++ hay) := by
  obtain ⟨l, r, rfl⟩ := h
  exact ⟨pre ++ l, r, by simp [List.append_assoc]⟩

theorem containsSubstr_truncation_msg (tc n : Nat) (it : PyStr) :
    containsSubstr "TRUNCATED".data (truncation_msg tc n it) := by
  refine ⟨"\n\n---\n**".data,
    "**: Response too large. Showing approximately ".data ++ (toString tc).data
      ++ " of ".data ++ (toString n).data ++ " ".data ++ it
      ++ ". Use pagination parameters (initial/final) or add filters to see more results.".data,
    ?_⟩
  unfold truncation_msg
  rw [show "\n\n---\n**TRUNCATED**: Response too large. Showing approximately ".data
      = "\n\n---\n**".data ++ "TRUNCATED".data
          ++ "**: Response too large. Showing approximately ".data from by decide]
  simp [List.append_assoc]

theorem find?_eq_head_filter {α : Type} (p : α → Bool) (l : List α) :
    l.find? p = (l.filter p).head? := by
  induction l with
  | nil => rfl
  | cons x xs ih =>
    by_cases hx : p x = true
    · rw [List.find?_cons_of_pos _ hx, List.filter_cons_of_pos hx]
      rfl
    · rw [List.find?_cons_of_neg _ hx, List.filter_cons_of_neg (by simpa using hx), ih]

/-- C1: the claim asserts the `Attrs` scan and the `ListAttr` scan are
interchangeable inside the extraction function; on a record whose entry
lives only in `ListAttr`, the code returns the default while the claimed
`ListAttr` reading returns the stored value. -/
theorem C1_counterexample :
    extract_attr_value
        ⟨[], [], [⟨some "Teacher".data, ["John".data]⟩]⟩ "Teacher".data "N/A".data
      = "N/A".data
    ∧ extract_attr_value_via_listattr
        ⟨[], [], [⟨some "Teacher".data, ["John".data]⟩]⟩ "Teacher".data "N/A".data
      = "John".data
    ∧ ¬ (extract_attr_value
           ⟨[], [], [⟨some "Teacher".data, ["John".data]⟩]⟩ "Teacher".data "N/A".data
         = extract_attr_value_via_listattr
           ⟨[], [], [⟨some "Teacher".data, ["John".data]⟩]⟩ "Teacher".data "N/A".data) := by
  decide

/-- C1 (amended): `_extract_attr_value` returns the flat value when the
key is present, else the first value of the first `Attrs` entry named
`f` (the default when its `Values` is empty), else the default; the
`ListAttr` array is never consulted. -/
theorem C1_extract_attr_value_amended (item : Record) (f d : PyStr) :
    extract_attr_value item f d = extract_attr_value_amended_spec item f d := by
  unfold extract_attr_value extract_attr_value_amended_spec
  rw [find?_eq_head_filter]
  cases lookup_flat item.flat f with
  | some v => rfl
  | none =>
    cases (item.Attrs.filter fun a => a.Name = some f).head? with
    | none => rfl
    | some a =>
      obtain ⟨nm, vals⟩ := a
      cases vals <;> rfl

/-- C3: an input carrying both a folder id and a folder path passes the
validator, contradicting the claim that both-set yields a
`ValidationError`. -/
theorem C3_counterexample :
    is_validation_error
        (validate_identifiers (some "16cdeb939d9".data) (some "/Projects".data))
      = false := by
  decide

/-- C3 (amended): the shared identifier validator raises `ValueError`
exactly when both the id and the path are falsy (absent or empty); an
input with both set is accepted. -/
theorem C3_validate_identifiers_amended (folder_id folder_path : Option PyStr) :
    is_validation_error (validate_identifiers folder_id folder_path)
      = (!(truthy folder_id) && !(truthy folder_path)) := by
  by_cases h : (!(truthy folder_id) && !(truthy folder_path)) = true
  · simp [validate_identifiers, is_validation_error, h]
  · simp only [Bool.not_eq_true] at h
    simp [validate_identifiers, is_validation_error, h]

/-- C5: the endpoint `openprodoc_list_subfolders` builds from a path
lacking a trailing separator does not end in `'/'`, contradicting the
claim that every path-addressed endpoint is normalized. -/
theorem C5_counterexample :
    list_subfolders_endpoint none (some "/Projects".data)
      = Except.ok "folders/SubFoldersByPath/Projects".data
    ∧ ends_with_slash "folders/SubFoldersByPath/Projects".data = false := by
  constructor
  · rfl
  · decide

theorem ends_with_slash_norm_path (p : PyStr) :
    ends_with_slash (norm_path p) = true := by
  by_cases h : ends_with_slash p = true
  · simp [norm_path, h]
  · have hc : List.getLast? (p ++ ['/']) = some '/' := by
      rw [List.getLast?_append_of_ne_nil _ (by simp)]
      rfl
    have h' : ¬List.getLast? p = some '/' := by simpa [ends_with_slash] using h
    simp [norm_path, ends_with_slash, h', hc]

theorem norm_path_ne_nil (p : PyStr) : norm_path p ≠ [] := by
  unfold norm_path
  by_cases h : ends_with_slash p = true
  · simp only [h, if_true]
    intro he
    rw [he] at h
    simp [ends_with_slash] at h
  · simp [h]

theorem ends_with_slash_append (pre l : PyStr) (h : l ≠ []) :
    ends_with_slash (pre ++ l) = ends_with_slash l := by
  simp [ends_with_slash, List.getLast?_append_of_ne_nil _ h]

/-- C5 (amended): the get/update/delete folder endpoints normalize a
supplied path to end with `'/'`; the list-subfolders and list-documents
endpoints forward the supplied path verbatim, without normalization. -/
theorem C5_path_normalization_amended (p : PyStr) (h : p ≠ []) :
    get_folder_endpoint none (some p) = Except.ok ("folders/ByPath".data ++ norm_path p)
    ∧ ends_with_slash ("folders/ByPath".data ++ norm_path p) = true
    ∧ update_folder_endpoint none (some p) = Except.ok ("folders/ByPath".data ++ norm_path p)
    ∧ delete_folder_endpoint none (some p) = Except.ok ("folders/ByPath".data ++ norm_path p)
    ∧ list_subfolders_endpoint none (some p)
        = Except.ok ("folders/SubFoldersByPath".data ++ p)
    ∧ list_documents_endpoint none (some p)
        = Except.ok ("folders/ContDocsByPath".data ++ p) := by
  refine ⟨?_, ?_, ?_, ?_, ?_, ?_⟩
  · simp [get_folder_endpoint, truthy, h]
  · rw [ends_with_slash_append _ _ (norm_path_ne_nil p), ends_with_slash_norm_path]
  · simp [update_folder_endpoint, truthy, h]
  · simp [delete_folder_endpoint, truthy, h]
  · simp [list_subfolders_endpoint, truthy, h]
  · simp [list_documents_endpoint, truthy, h]

/-- C5 witness: the amended statement at the concrete path `/Projects`. -/
theorem C5_path_normalization_amended_witness :
    "/Projects".data ≠ []
    ∧ (get_folder_endpoint none (some "/Projects".data)
         = Except.ok ("folders/ByPath".data ++ norm_path "/Projects".data)
       ∧ ends_with_slash ("folders/ByPath".data ++ norm_path "/Projects".data) = true
       ∧ update_folder_endpoint none (some "/Projects".data)
         = Except.ok ("folders/ByPath".data ++ norm_path "/Projects".data)
       ∧ delete_folder_endpoint none (some "/Projects".data)
         = Except.ok ("folders/ByPath".data ++ norm_path "/Projects".data)
       ∧ list_subfolders_endpoint none (some "/Projects".data)
         = Except.ok ("folders/SubFoldersByPath".data ++ "/Projects".data)
       ∧ list_documents_endpoint none (some "/Projects".data)
         = Except.ok ("folders/ContDocsByPath".data ++ "/Projects".data)) :=
  ⟨by decide, C5_path_normalization_amended "/Projects".data (by decide)⟩

/-- C6: on a message whose id part itself contains `'='`, the code
reports only the segment between the first and second `'='`, not the
whole substring after the first `'='` as the claim asserts. -/
theorem C6_counterexample :
    extract_msg_id "Creado=16c=extra".data "Unknown".data = "16c".data
    ∧ extract_msg_id_claim "Creado=16c=extra".data "Unknown".data = "16c=extra".data
    ∧ ¬ (extract_msg_id "Creado=16c=extra".data "Unknown".data
          = extract_msg_id_claim "Creado=16c=extra".data "Unknown".data) := by
  decide

/-- C6 (amended): the reported identifier is the segment of `Msg` between
the first `'='` and the second `'='` (or the end of `Msg` when no second
`'='` exists), and the fallback when `Msg` holds no `'='`; it equals the
substring after the first `'='` only when that substring has no further
`'='`. -/
theorem C6_extract_msg_id_amended (label mid rest fb : PyStr)
    (hl : '=' ∉ label) (hm : '=' ∉ mid) :
    extract_msg_id (label ++ '=' :: mid) fb = mid
    ∧ extract_msg_id (label ++ '=' :: (mid ++ '=' :: rest)) fb = mid
    ∧ extract_msg_id label fb = fb := by
  refine ⟨?_, ?_, ?_⟩
  · have hin : '=' ∈ label ++ '=' :: mid :=
      List.mem_append_right _ (List.mem_cons_self _ _)
    rw [extract_msg_id, if_pos hin, pySplit_append _ hl, pySplit_not_mem hm]
    rfl
  · have hin : '=' ∈ label ++ '=' :: (mid ++ '=' :: rest) :=
      List.mem_append_right _ (List.mem_cons_self _ _)
    rw [extract_msg_id, if_pos hin, pySplit_append _ hl, pySplit_append _ hm]
    rfl
  · rw [extract_msg_id, if_neg hl]

/-- C6 witness: the amended statement at the concrete message
`Creado=16c` with id part `16c` and a second segment `extra`. -/
theorem C6_extract_msg_id_amended_witness :
    ('=' ∉ "Creado".data) ∧ ('=' ∉ "16c".data)
    ∧ (extract_msg_id ("Creado".data ++ '=' :: "16c".data) "Unknown".data = "16c".data
       ∧ extract_msg_id ("Creado".data ++ '=' :: ("16c".data ++ '=' :: "extra".data))
           "Unknown".data = "16c".data
       ∧ extract_msg_id "Creado".data "Unknown".data = "Unknown".data) :=
  ⟨by decide, by decide,
   C6_extract_msg_id_amended "Creado".data "16c".data "extra".data "Unknown".data
     (by decide) (by decide)⟩

/-- C9: when both the id and the path are supplied, the validator accepts
the input and every folder endpoint builder proceeds with the `ById`
family, ignoring the supplied path. -/
theorem C9_both_identifiers_uses_id (fid fpath : Option PyStr) (h : truthy fid = true) :
    is_validation_error (validate_identifiers fid fpath) = false
    ∧ get_folder_endpoint fid fpath = Except.ok ("folders/ById/".data ++ fid.getD [])
    ∧ update_folder_endpoint fid fpath = Except.ok ("folders/ById/".data ++ fid.getD [])
    ∧ delete_folder_endpoint fid fpath = Except.ok ("folders/ById/".data ++ fid.getD [])
    ∧ list_subfolders_endpoint fid fpath
        = Except.ok ("folders/SubFoldersById/".data ++ fid.getD [])
    ∧ list_documents_endpoint fid fpath
        = Except.ok ("folders/ContDocsById/".data ++ fid.getD []) := by
  refine ⟨?_, ?_, ?_, ?_, ?_, ?_⟩
  · simp [validate_identifiers, is_validation_error, h]
  · simp [get_folder_endpoint, h]
  · simp [update_folder_endpoint, h]
  · simp [delete_folder_endpoint, h]
  · simp [list_subfolders_endpoint, h]
  · simp [list_documents_endpoint, h]

/-- C9 witness: the statement at a concrete id and path both supplied. -/
theorem C9_both_identifiers_uses_id_witness :
    truthy (some "16cdeb939d9".data) = true
    ∧ (is_validation_error
         (validate_identifiers (some "16cdeb939d9".data) (some "/P".data)) = false
       ∧ get_folder_endpoint (some "16cdeb939d9".data) (some "/P".data)
         = Except.ok ("folders/ById/".data ++ (some "16cdeb939d9".data).getD [])
       ∧ update_folder_endpoint (some "16cdeb939d9".data) (some "/P".data)
         = Except.ok ("folders/ById/".data ++ (some "16cdeb939d9".data).getD [])
       ∧ delete_folder_endpoint (some "16cdeb939d9".data) (some "/P".data)
         = Except.ok ("folders/ById/".data ++ (some "16cdeb939d9".data).getD [])
       ∧ list_subfolders_endpoint (some "16cdeb939d9".data) (some "/P".data)
         = Except.ok ("folders/SubFoldersById/".data ++ (some "16cdeb939d9".data).getD [])
       ∧ list_documents_endpoint (some "16cdeb939d9".data) (some "/P".data)
         = Except.ok ("folders/ContDocsById/".data ++ (some "16cdeb939d9".data).getD [])) :=
  ⟨by decide, C9_both_identifiers_uses_id (some "16cdeb939d9".data) (some "/P".data) (by decide)⟩

/-! Claim C2: truncation. -/

theorem check_truncation_pos {α : Type} (s : PyStr) (data : List α) (it : PyStr)
    (h : CHARACTER_LIMIT < s.length) :
    check_truncation s data it
      = pyJoin '\n' ((pySplit '\n' s).take ((pySplit '\n' s).length / 2))
          ++ truncation_msg (max 1 (data.length / 2)) data.length it := by
  unfold check_truncation
  rw [if_pos h]

/-- A report consisting of one 25001-character line, a newline and one
more character: over budget, with almost all of its content in the kept
first half of the lines. -/
def big_line : PyStr := List.replicate 25001 'A'

/-- The over-budget report used against C2. -/
def big_report : PyStr := big_line ++ '\n' :: ['x']

theorem big_report_length : big_report.length = 25003 := by
  rw [big_report, big_line, List.length_append, List.length_replicate]
  rfl

theorem newline_not_mem_big_line : '\n' ∉ big_line := by
  intro hmem
  have := List.eq_of_mem_replicate hmem
  exact absurd this (by decide)

theorem pySplit_big_report : pySplit '\n' big_report = [big_line, ['x']] := by
  rw [big_report, pySplit_append _ newline_not_mem_big_line]
  rfl

/-- C2: on `big_report` (25003 characters in two lines), the truncated
output keeps the whole 25001-character first line and appends the
154-character notice, so its length exceeds the original length,
contradicting the claimed `≤` guarantee. -/
theorem C2_counterexample :
    CHARACTER_LIMIT < big_report.length
    ∧ ¬ ((check_truncation big_report [()] "items".data).length ≤ big_report.length) := by
  have h1 : CHARACTER_LIMIT < big_report.length := by
    rw [big_report_length]
    decide
  have hch : check_truncation big_report [()] "items".data
      = big_line ++ truncation_msg 1 1 "items".data := by
    rw [check_truncation_pos _ _ _ h1, pySplit_big_report]
    rfl
  have hmsg : (truncation_msg 1 1 "items".data).length = 154 := by decide
  have hbl : big_line.length = 25001 := by
    rw [big_line, List.length_replicate]
  refine ⟨h1, ?_⟩
  rw [hch, big_report_length, List.length_append, hmsg, hbl]
  decide

/-- C2 (amended): when the rendered report exceeds the budget, the output
contains the literal `TRUNCATED` and its length is bounded by the
original length plus the length of the appended notice (it can exceed
the original length, as `C2_counterexample` shows); a report within the
budget is returned unchanged. -/
theorem C2_check_truncation_amended {α : Type} (s : PyStr) (data : List α) (it : PyStr) :
    (CHARACTER_LIMIT < s.length →
      (check_truncation s data it).length
          ≤ s.length + (truncation_msg (max 1 (data.length / 2)) data.length it).length
      ∧ containsSubstr "TRUNCATED".data (check_truncation s data it))
    ∧ (s.length ≤ CHARACTER_LIMIT → check_truncation s data it = s) := by
  constructor
  · intro h
    rw [check_truncation_pos _ _ _ h]
    constructor
    · rw [List.length_append]
      have h1 : (pyJoin '\n' ((pySplit '\n' s).take ((pySplit '\n' s).length / 2))).length
          ≤ s.length := by
        calc (pyJoin '\n' ((pySplit '\n' s).take ((pySplit '\n' s).length / 2))).length
            ≤ (pyJoin '\n' (pySplit '\n' s)).length := pyJoin_take_le '\n' _ _
          _ = s.length := by rw [pyJoin_pySplit]
      omega
    · exact containsSubstr_append_left _ _ _ (containsSubstr_truncation_msg _ _ _)
  · intro h
    unfold check_truncation
    rw [if_neg (by omega)]

/-- C2 witness: a report within the budget passes through unchanged. -/
theorem C2_check_truncation_amended_witness :
    "ab".data.length ≤ CHARACTER_LIMIT
    ∧ check_truncation "ab".data ([] : List Unit) "items".data = "ab".data :=
  ⟨by decide, (C2_check_truncation_amended "ab".data ([] : List Unit) "items".data).2 (by decide)⟩

/-! Claim C4: zero-field updates. -/

/-- An existing-document metadata record used as a fetch result. -/
def docMeta0 : DocMeta :=
  ⟨some "T".data, some "Public".data, some "P1".data, some "PD_DOCS".data,
   some "1.0".data, some "2025-01-01".data, some "2025-01-01 10:00:00".data,
   some "root".data, []⟩

/-- C4: a document update carrying zero optional fields still issues the
initial metadata `GET` before failing validation, contradicting the
claim that no network request at all is made. -/
theorem C4_counterexample :
    (openprodoc_update_document "D1".data none none none none none none none none none
        none RespFormat.markdown (some "tok".data) none (.ok docMeta0)
        (.ok ⟨some "OK".data, some "Actualizado=D1".data⟩)).2
      = [⟨"GET".data, "documents/ById/D1".data⟩]
    ∧ (openprodoc_update_document "D1".data none none none none none none none none none
        none RespFormat.markdown (some "tok".data) none (.ok docMeta0)
        (.ok ⟨some "OK".data, some "Actualizado=D1".data⟩)).2 ≠ ([] : List Req)
    ∧ (openprodoc_update_document "D1".data none none none none none none none none none
        none RespFormat.markdown (some "tok".data) none (.ok docMeta0)
        (.ok ⟨some "OK".data, some "Actualizado=D1".data⟩)).1
      = ToolResult.text "Error: No fields to update. Provide at least one of: file_path, title, document_type, parent_folder_id, acl, version_label, doc_date, author, pd_date, or attributes.".data := by
  decide

/-- C4 (amended): folder and term updates with zero optional fields fail
validation before any network request; a document update with zero
optional fields issues exactly the one initial metadata `GET` and then
fails validation, never reaching the update `PUT`. -/
theorem C4_zero_field_updates_amended
    (folder_id folder_path : Option PyStr) (fmt : RespFormat) (token : Option PyStr)
    (outF outT : Except ApiError RespBody) (term_id document_id : PyStr)
    (file_content : Option PyStr) (put : Except ApiError RespBody) (d : DocMeta)
    (htok : truthy token = true) :
    openprodoc_update_folder folder_id folder_path none none none fmt token outF
      = (.text "Error: No fields to update. Provide at least one of: name, acl, or attributes.".data, [])
    ∧ openprodoc_update_term term_id none none none none fmt token outT
      = (.text "Error: No fields to update. Provide at least one of: name, description, language, or scope_note.".data, [])
    ∧ openprodoc_update_document document_id none none none none none none none none
        none none fmt token file_content (.ok d) put
      = (.text "Error: No fields to update. Provide at least one of: file_path, title, document_type, parent_folder_id, acl, version_label, doc_date, author, pd_date, or attributes.".data,
         [⟨"GET".data, "documents/ById/".data ++ document_id⟩]) := by
  have htn : truthy (none : Option PyStr) = false := rfl
  refine ⟨?_, ?_, ?_⟩
  · simp [openprodoc_update_folder]
  · simp [openprodoc_update_term]
  · simp [openprodoc_update_document, get_document_metadata_raw, htok, htn]

/-- C4 witness: the amended statement at concrete inputs with a stored
token and a successful metadata fetch. -/
theorem C4_zero_field_updates_amended_witness :
    truthy (some "tok".data) = true
    ∧ (openprodoc_update_folder none (some "/A".data) none none none RespFormat.markdown
          (some "tok".data) (.ok ⟨some "OK".data, none⟩)
        = (.text "Error: No fields to update. Provide at least one of: name, acl, or attributes.".data, [])
       ∧ openprodoc_update_term "T1".data none none none none RespFormat.markdown
           (some "tok".data) (.ok ⟨some "OK".data, none⟩)
        = (.text "Error: No fields to update. Provide at least one of: name, description, language, or scope_note.".data, [])
       ∧ openprodoc_update_document "D1".data none none none none none none none none
           none none RespFormat.markdown (some "tok".data) none (.ok docMeta0)
           (.ok ⟨some "OK".data, none⟩)
        = (.text "Error: No fields to update. Provide at least one of: file_path, title, document_type, parent_folder_id, acl, version_label, doc_date, author, pd_date, or attributes.".data,
           [⟨"GET".data, "documents/ById/".data ++ "D1".data⟩])) :=
  ⟨by decide,
   C4_zero_field_updates_amended none (some "/A".data) RespFormat.markdown (some "tok".data)
     (.ok ⟨some "OK".data, none⟩) (.ok ⟨some "OK".data, none⟩) "T1".data "D1".data none
     (.ok ⟨some "OK".data, none⟩) docMeta0 (by decide)⟩

/-! Claim C7: the 500 / Empty_conditions search scenario. -/

/-- C7: a document search whose request fails with HTTP 500 and body
`Res="KO"`, `Msg="Empty_conditions"` returns exactly the string
`Error: Internal server error - Empty_conditions`. -/
theorem C7_search_500_empty_conditions :
    openprodoc_search_documents "Select * from PD_DOCS".data 0 100
        RespFormat.markdown (some "tok".data)
        (.error (.httpStatus 500 (some ⟨some "KO".data, some "Empty_conditions".data⟩)))
      = (.text "Error: Internal server error - Empty_conditions".data,
         [⟨"POST".data, "documents/Search".data⟩]) := by
  decide

/-! Claim C8: logout always clears the token. -/

/-- C8: whenever a truthy token is stored, logout clears it on every exit
path: remote success, remote logical failure, and any raised error. -/
theorem C8_logout_clears_token (st : Session) (outcome : Except ApiError RespBody)
    (h : truthy st.auth_token = true) :
    (openprodoc_logout st outcome).2.auth_token = none := by
  unfold openprodoc_logout
  rw [if_neg (by simp [h])]
  cases outcome with
  | error e => rfl
  | ok d =>
    by_cases hr : d.Res = some "OK".data
    · simp [hr]
    · simp [hr]

/-- C8 witness: logout with a stored token and a successful remote call. -/
theorem C8_logout_clears_token_witness :
    truthy (some "abc123".data) = true
    ∧ (openprodoc_logout
          ⟨some "abc123".data, "http://localhost:8080/ProdocWeb2/APIRest".data⟩
          (.ok ⟨some "OK".data, none⟩)).2.auth_token = none :=
  ⟨by decide, C8_logout_clears_token _ _ (by decide)⟩

/-! Claim C10: state effects of a failed login with a base URL. -/

/-- A login attempt counts as failed when the request raised or the
response lacks `Res="OK"` together with a `Token`. -/
def login_attempt_failed : Except ApiError LoginResp → Bool
  | .error _ => true
  | .ok d => !(decide (d.Res = some "OK".data) && d.Token.isSome)

/-- C10: when login is called with a truthy base URL and resolvable
credentials and the attempt fails, the stored token is unchanged while
the global base URL has been overwritten with the supplied one, so the
failed call still redirects every subsequent operation. -/
theorem C10_login_failure_state
    (username password base_url default_username default_password : Option PyStr)
    (st : Session) (outcome : Except ApiError LoginResp)
    (hu : truthy (py_or username default_username) = true)
    (hp : truthy (py_or password default_password) = true)
    (hb : truthy base_url = true)
    (hf : login_attempt_failed outcome = true) :
    (openprodoc_login username password base_url default_username default_password
        st outcome).2.auth_token = st.auth_token
    ∧ (openprodoc_login username password base_url default_username default_password
        st outcome).2.base_url = base_url.getD [] := by
  unfold openprodoc_login
  rw [if_neg (by simp [hu, hp])]
  cases outcome with
  | error e => simp [hb]
  | ok d =>
    have hnot : ¬(d.Res = some "OK".data ∧ d.Token.isSome) := by
      rintro ⟨h1, h2⟩
      simp [login_attempt_failed, h1, h2] at hf
    simp [hb, hnot]

/-- C10 witness: a failed login (logical failure `Res="KO"`) with a
supplied base URL leaves the old token and overwrites the base URL. -/
theorem C10_login_failure_state_witness :
    truthy (py_or (some "root".data) none) = true
    ∧ truthy (py_or (some "secret".data) none) = true
    ∧ truthy (some "http://h".data) = true
    ∧ login_attempt_failed (.ok ⟨some "KO".data, none, some "Invalid".data⟩) = true
    ∧ ((openprodoc_login (some "root".data) (some "secret".data) (some "http://h".data)
          none none ⟨some "old".data, "http://prev".data⟩
          (.ok ⟨some "KO".data, none, some "Invalid".data⟩)).2.auth_token
        = (⟨some "old".data, "http://prev".data⟩ : Session).auth_token
       ∧ (openprodoc_login (some "root".data) (some "secret".data) (some "http://h".data)
          none none ⟨some "old".data, "http://prev".data⟩
          (.ok ⟨some "KO".data, none, some "Invalid".data⟩)).2.base_url
        = (some "http://h".data).getD []) :=
  ⟨by decide, by decide, by decide, by decide,
   C10_login_failure_state _ _ _ _ _ _ _ (by decide) (by decide) (by decide) (by decide)⟩

end OpenProdoc
